import Mathlib

/-!
Shallow embedding of the oraimo earbud control client (src/main.py) and
verification of its specification claims.

Bytes are modelled as natural numbers; Python `bytes` values are `List Nat`.
Python exceptions that escape a `try` block are modelled with `Except`;
the constructors of `PyExc` name the Python exception classes involved.
Python `None` is modelled with `Option`.

Modelling notes, applying throughout:
* `int.to_bytes(n)` (default length 1, big-endian) raises `OverflowError`
  for `n >= 256`; the embedding `int_to_bytes` is only used at values below
  256, which every theorem respects, so the raising case is not modelled.
* `len(payload).to_bytes(1, 'little')` likewise raises for lengths above
  255; theorems about `build_packet` carry the `length <= 255` bound.
* Blocking queue reads (`_get_next_message` with the default
  `timeout=None`) are modelled by popping an explicit supply list
  of `Option (List Nat)`; `none` stands for the empty/timeout outcome
  (in Python a blocking read would wait instead, so theorems about
  blocking call sites supply enough messages).
* Terminal rendering (`rich` tables, `live.update`, `print`) is effect-free
  for the protocol state and is modelled as a no-op.
-/

/-- Python exception kinds that can escape the `try` blocks of main.py. -/
inductive PyExc where
  | indexError
  | typeError
  | attributeError
deriving Repr, DecidableEq

/-- A dynamically typed Python value stored in a `Payload` battery field:
`_parse_heartbeat` stores `int`s there while `parse_pairing_response`
stores `bytes`. -/
inductive PyVal where
  | vint (n : Nat)
  | vbytes (bs : List Nat)
deriving Repr, DecidableEq

/-- Result of `parse_packet` (the `Response` dataclass of main.py). -/
structure Response where
  sequence : Option (List Nat) := none
  command : Option (List Nat) := none
  id : Option (List Nat) := none
  payload_size : Option Nat := none
  payload : Option (List Nat) := none
  error : Option String := none
deriving Repr, DecidableEq

/-- The `Payload` dataclass of main.py. The `name` field keeps the raw
bytes of the slice that Python decodes as UTF-8 (a malformed-UTF-8 name
would raise `UnicodeDecodeError` in Python; that case is not modelled and
only widens the domain on which `parse_pairing_response` succeeds). -/
structure Payload where
  battery_l : Option PyVal := none
  battery_r : Option PyVal := none
  battery_case : Option PyVal := none
  name : Option (List Nat) := none
  error : Option String := none
deriving Repr, DecidableEq

/-- ComHandler.PAIR_COMMAND, bytes.fromhex("27"). -/
def PAIR_COMMAND : List Nat := [0x27]

/-- ComHandler.PAIR_0. -/
def PAIR_0 : List Nat := [0xff, 0x00]

/-- ComHandler.PAIR_1. -/
def PAIR_1 : List Nat :=
  [0x01, 0x00, 0x02, 0x00, 0x03, 0x00, 0x04, 0x00, 0x05, 0x00, 0x06, 0x00,
   0x07, 0x00, 0x08, 0x00, 0x09, 0x00, 0x0a, 0x00, 0x0b, 0x00, 0x0c, 0x00,
   0x0d, 0x00, 0x0e, 0x00, 0x0f, 0x00, 0x10, 0x00, 0x11, 0x00, 0x12, 0x00,
   0x13, 0x00, 0x14, 0x00, 0x15, 0x00, 0x16, 0x00, 0x17, 0x00, 0x18, 0x00,
   0xfe, 0x00, 0x20, 0x00]

/-- ComHandler.PAIR_2. -/
def PAIR_2 : List Nat := [0x0c, 0x00]

/-- ComHandler.GAME_MODE_COMMAND. -/
def GAME_MODE_COMMAND : List Nat := [0x25]

/-- ComHandler.SPATIAL_AUDIO_COMMAND. -/
def SPATIAL_AUDIO_COMMAND : List Nat := [0x36]

/-- ComHandler.EARBUD_FUNCTIONALITY_COMMAND. -/
def EARBUD_FUNCTIONALITY_COMMAND : List Nat := [0x22]

/-- ComHandler.SOUND_PROFILE_COMMAND. -/
def SOUND_PROFILE_COMMAND : List Nat := [0x20]

/-- ComHandler.TOGGLE_ON. -/
def TOGGLE_ON : List Nat := [0x01]

/-- ComHandler.TOGGLE_OFF. -/
def TOGGLE_OFF : List Nat := [0x00]

/-- ComHandler.BATTERY_INDEX. -/
def BATTERY_INDEX : Nat := 2

/-- ComHandler.BATTERY_OFFSET. -/
def BATTERY_OFFSET : Nat := 5

/-- ComHandler.NAME_LENGTH_OFFSET. -/
def NAME_LENGTH_OFFSET : Nat := 12

/-- ComHandler.NAME_OFFSET. -/
def NAME_OFFSET : Nat := 12

/-- ComHandler.LEFT_BUD. -/
def LEFT_BUD : Nat := 1

/-- ComHandler.RIGHT_BUD. -/
def RIGHT_BUD : Nat := 2

/-- ComHandler.TAP_AMNT: single tap, double tap, triple tap offsets. -/
def TAP_AMNT : List Nat := [0, 2, 4]

/-- ComHandler.NONE action code. -/
def NONE : List Nat := [0x01, 0x00]

/-- ComHandler.PLAY_PAUSE action code. -/
def PLAY_PAUSE : List Nat := [0x01, 0x07]

/-- ComHandler.LAST_TRACK action code. -/
def LAST_TRACK : List Nat := [0x01, 0x03]

/-- ComHandler.NEXT_TRACK action code. -/
def NEXT_TRACK : List Nat := [0x01, 0x04]

/-- ComHandler.VOL_UP action code. -/
def VOL_UP : List Nat := [0x01, 0x05]

/-- ComHandler.VOL_DOWN action code. -/
def VOL_DOWN : List Nat := [0x01, 0x06]

/-- ComHandler.PRESETS: the five 11-byte EQ templates (0-based list). -/
def PRESETS : List (List Nat) :=
  [[0x01, 0xfd, 0xfe, 0x04, 0x01, 0x02, 0x01, 0x03, 0x00, 0x00, 0x00],
   [0x02, 0x0a, 0x06, 0x04, 0xff, 0xfe, 0xfd, 0x01, 0x00, 0x00, 0x00],
   [0x03, 0x03, 0x02, 0xfd, 0x03, 0xff, 0x03, 0x02, 0x05, 0x00, 0x00],
   [0x04, 0xfa, 0xfd, 0xff, 0x01, 0x01, 0x04, 0x06, 0x00, 0x00, 0x00],
   [0x05, 0xfa, 0xfd, 0x06, 0x04, 0x03, 0xfb, 0xfa, 0x00, 0x00, 0x00]]

/-- ComHandler.HEARTBEAT opcode. -/
def HEARTBEAT : List Nat := [0x28]

/-- Python `int.to_bytes(n)` with the default one-byte length; meaningful
for `n < 256` (larger values raise `OverflowError` in Python and are never
produced at the call sites that the theorems cover). -/
def int_to_bytes (n : Nat) : List Nat := [n]

/-- Python slice `l[a:b]` for nonnegative bounds: elements at indices
`a, ..., b-1` that exist; never raises. -/
def pySlice (l : List Nat) (a b : Nat) : List Nat := (l.take b).drop a

/-- ComHandler.build_packet: sequence bytes, command byte, the 2-byte
little-endian client id 0x0001, one payload-length byte, then the payload.
The length byte is written as `payload.length`, matching Python for
payloads of at most 255 bytes (longer ones raise `OverflowError`). -/
def build_packet (sequence command payload : List Nat) : List Nat :=
  sequence ++ command ++ [0x01, 0x00] ++ [payload.length] ++ payload

/-- ComHandler.parse_packet. `packet[4]` raises `IndexError` when the
packet has at most 4 bytes, caught and reported as the "Indexing error"
response; all remaining accesses are slices, which never raise. -/
def parse_packet (packet : List Nat) : Response :=
  match packet[4]? with
  | some payload_size =>
      { sequence := some (pySlice packet 0 1)
        command := some (pySlice packet 1 2)
        id := some (pySlice packet 2 3)
        payload_size := some payload_size
        payload := some (pySlice packet 5 (5 + payload_size))
        error := none }
  | none =>
      { sequence := none, command := none, id := none,
        payload_size := none, payload := none, error := some "Indexing error" }

/-- Evaluation shape of `parse_packet` on a packet with at least 5 bytes. -/
theorem parse_packet_cons (a b c d e : Nat) (rest : List Nat) :
    parse_packet (a :: b :: c :: d :: e :: rest) =
      { sequence := some [a], command := some [b], id := some [c],
        payload_size := some e, payload := some (rest.take e), error := none } := by
  have h : (5 : Nat) + e = e + 5 := Nat.add_comm 5 e
  simp [parse_packet, pySlice, h, List.take_succ_cons, List.drop_succ_cons]

/-- C2: decoding the encoding of a frame with sequence in 0..15, a one-byte
opcode and a payload of at most 255 bytes returns the original sequence
byte, the original opcode byte, the client id (the decoder keeps
`raw[2:3] = [0x01]`, the low byte of the little-endian constant 0x0001,
integer value 1), the declared payload length equal to the payload's
length, and the original payload, with no error. -/
theorem build_parse_roundtrip (seq opcode : Nat) (payload : List Nat)
    (h1 : seq < 16) (h2 : opcode < 256) (h3 : payload.length ≤ 255) :
    parse_packet (build_packet (int_to_bytes seq) [opcode] payload) =
      { sequence := some [seq], command := some [opcode], id := some [0x01],
        payload_size := some payload.length, payload := some payload,
        error := none } := by
  have : build_packet (int_to_bytes seq) [opcode] payload =
      seq :: opcode :: 0x01 :: 0x00 :: payload.length :: payload := by
    simp [build_packet, int_to_bytes]
  rw [this, parse_packet_cons, List.take_length]

/-- Witness for C2 at a concrete frame. -/
theorem build_parse_roundtrip_witness :
    5 < 16 ∧ 0x25 < 256 ∧ ([7, 9] : List Nat).length ≤ 255 ∧
    parse_packet (build_packet (int_to_bytes 5) [0x25] [7, 9]) =
      { sequence := some [5], command := some [0x25], id := some [0x01],
        payload_size := some 2, payload := some [7, 9], error := none } :=
  ⟨by decide, by decide, by decide,
    build_parse_roundtrip 5 0x25 [7, 9] (by decide) (by decide) (by decide)⟩

/-- C3 counterexample: the 5-byte raw string `[0,0,0,0,3]` declares a
3-byte payload but carries none (it is shorter than 5 + payloadLength),
yet `parse_packet` reports no error and returns a silently truncated
(empty) payload instead of failing with the indexing error. -/
theorem parse_packet_truncation_cex :
    (parse_packet [0, 0, 0, 0, 3]).error = none ∧
    (parse_packet [0, 0, 0, 0, 3]).payload_size = some 3 ∧
    (parse_packet [0, 0, 0, 0, 3]).payload = some [] := by
  decide

/-- C3 amended: `parse_packet` fails with the "Indexing error" response
exactly when the raw string has fewer than 5 bytes; whenever the
payload-length byte at offset 4 exists, it returns a frame whose payload is
`raw[5 : 5+payloadLength]` truncated to the bytes actually present, of
length `min payloadLength (raw.length - 5)`. -/
theorem parse_packet_truncation (raw : List Nat) :
    (raw.length ≤ 4 →
      parse_packet raw =
        { sequence := none, command := none, id := none, payload_size := none,
          payload := none, error := some "Indexing error" }) ∧
    (∀ ps, raw[4]? = some ps →
      (parse_packet raw).error = none ∧
      (parse_packet raw).payload = some ((raw.drop 5).take ps) ∧
      ((raw.drop 5).take ps).length = min ps (raw.length - 5)) := by
  constructor
  · intro h
    have h4 : raw[4]? = none := by
      rw [List.getElem?_eq_none_iff]
      omega
    simp [parse_packet, h4]
  · intro ps hps
    have hlen : 4 < raw.length := by
      by_contra h
      rw [List.getElem?_eq_none_iff.mpr (by omega)] at hps
      exact Option.noConfusion hps
    refine ⟨?_, ?_, ?_⟩
    · simp [parse_packet, hps]
    · have : pySlice raw 5 (5 + ps) = (raw.drop 5).take ps := by
        simp [pySlice, List.drop_take]
      simp [parse_packet, hps, this]
    · simp [List.length_take, List.length_drop]

/-- Witness for C3's amended theorem at concrete raw strings. -/
theorem parse_packet_truncation_witness :
    ([0, 1, 2] : List Nat).length ≤ 4 ∧
    parse_packet [0, 1, 2] =
      { sequence := none, command := none, id := none, payload_size := none,
        payload := none, error := some "Indexing error" } ∧
    ([9, 8, 7, 6, 5, 1, 2] : List Nat)[4]? = some 5 ∧
    (parse_packet [9, 8, 7, 6, 5, 1, 2]).error = none ∧
    (parse_packet [9, 8, 7, 6, 5, 1, 2]).payload = some (([9, 8, 7, 6, 5, 1, 2].drop 5).take 5) ∧
    ((([9, 8, 7, 6, 5, 1, 2] : List Nat).drop 5).take 5).length = min 5 ([9, 8, 7, 6, 5, 1, 2].length - 5) :=
  ⟨by decide, (parse_packet_truncation [0, 1, 2]).1 (by decide), by decide,
    (parse_packet_truncation [9, 8, 7, 6, 5, 1, 2]).2 5 (by decide)⟩

/-- Session-level mutable state of ComHandler: the `paired` flag plus the
`c_case` and `device_name` attributes. The latter two are bare class-level
annotations in main.py, unset until the first pairing response, so reading
them before that raises `AttributeError`; `none` models the unset state. -/
structure Session where
  paired : Bool
  c_case : Option Nat
  device_name : Option (List Nat)
deriving Repr, DecidableEq

/-- ComHandler._parse_heartbeat. `payload[2]`/`payload[3]` raise
`IndexError` when the actual payload is shorter than 4 bytes; nothing in
`_parse_heartbeat` or its caller catches it. Comparing a `None`
payload_size with 3 would raise `TypeError`. -/
def _parse_heartbeat (packet : Response) : Except PyExc Payload :=
  match packet.payload_size with
  | none => .error .typeError
  | some ps =>
    if ps > 3 then
      match packet.payload with
      | none => .error .typeError
      | some payload =>
        match payload[2]?, payload[3]? with
        | some left, some right =>
          .ok { battery_l := some (.vint left), battery_r := some (.vint right) }
        | _, _ => .error .indexError
    else .ok { error := some "no battery data" }

/-- ComHandler.parse_pairing_response. Only `payload[NAME_LENGTH_OFFSET]`
can raise `IndexError` inside the `try` (slices never raise), which is
caught and reported as the "Indexing error" payload. -/
def parse_pairing_response (payload0 : Response) : Except PyExc Payload :=
  match payload0.payload_size with
  | none => .error .typeError
  | some ps =>
    if ps > 14 then
      match payload0.payload with
      | none => .error .typeError
      | some payload =>
        match payload[NAME_LENGTH_OFFSET]? with
        | none => .ok { error := some "Indexing error" }
        | some b =>
          let name_length := b + 1
          let batslice := pySlice payload BATTERY_INDEX BATTERY_OFFSET
          .ok { battery_l := some (.vbytes (pySlice batslice 0 1)),
                battery_r := some (.vbytes (pySlice batslice 1 2)),
                battery_case := some (.vbytes (pySlice batslice 2 3)),
                name := some (pySlice payload NAME_OFFSET (NAME_OFFSET + name_length)) }
    else .ok { error := some "wrong packet" }

/-- Python `int.from_bytes` (default big-endian) on a `Payload` battery
field: defined for `bytes`, raises `TypeError` on an `int` argument. -/
def int_from_bytes : PyVal → Except PyExc Nat
  | .vbytes bs => .ok (List.foldl (fun a b => a * 256 + b) 0 bs)
  | .vint _ => .error .typeError

/-- ComHandler.get_status: converts the three battery fields with
`int.from_bytes`; a `None` field raises `TypeError`. -/
def get_status (data : Payload) : Except PyExc (Nat × Nat × Nat) :=
  match data.battery_l, data.battery_r, data.battery_case with
  | some l, some r, some c =>
    match int_from_bytes l, int_from_bytes r, int_from_bytes c with
    | .ok lv, .ok rv, .ok cv => .ok (lv, rv, cv)
    | _, _, _ => .error .typeError
  | _, _, _ => .error .typeError

/-- One iteration of the body of ComHandler._status_updater for a dequeued
message `data`. The `while` loop has no exception handler, so an `Except`
error models an exception escaping the loop body and killing the
status-updater thread; the error carries the session state as already
mutated before the raise (in the pairing branch `self.paired = True`
executes before `get_status`). Rendering via `live.update` only reads
state and is modelled as a no-op, but its arguments `self.c_case` and
`self.device_name` raise `AttributeError` while unset. -/
def _status_updater_step (s : Session) (data : List Nat) :
    Except (PyExc × Session) Session :=
  let packet := parse_packet data
  if packet.command = some HEARTBEAT then
    match packet.payload_size with
    | none => .error (.typeError, s)
    | some ps =>
      if ps > 3 then
        match _parse_heartbeat packet with
        | .error e => .error (e, s)
        | .ok _battery_data =>
          match s.c_case with
          | none => .error (.attributeError, s)
          | some _ =>
            match s.device_name with
            | none => .error (.attributeError, s)
            | some _ => .ok s
      else .ok s
  else if packet.command = some PAIR_COMMAND then
    match parse_pairing_response packet with
    | .error e => .error (e, s)
    | .ok pairing_response =>
      if pairing_response.error = some "wrong packet" then .ok s
      else
        let s1 : Session := { s with paired := true }
        match get_status pairing_response with
        | .error e => .error (e, s1)
        | .ok (_left, _right, c_case) =>
          .ok { s1 with c_case := some c_case,
                        device_name := pairing_response.name }
  else .ok s

/-- The session state after a status-updater iteration, whether the body
returned normally or an exception escaped with the state mutated so far. -/
def sessionOf : Except (PyExc × Session) Session → Session
  | .ok s => s
  | .error (_, s) => s

/-- C4: a heartbeat frame whose declared payload length (10) exceeds its
actual payload (empty) makes `_parse_heartbeat` evaluate `payload[2]`,
raising an `IndexError` that no handler in the status-updater loop
catches: the iteration ends in an escaped exception (crashing the
consumer thread) instead of dropping the frame and continuing. -/
theorem status_updater_truncated_heartbeat_crash :
    _status_updater_step { paired := false, c_case := none, device_name := none }
        [0x00, 0x28, 0x01, 0x00, 0x0a] =
      .error (.indexError,
        { paired := false, c_case := none, device_name := none }) := by
  rfl

/-- Pop the next message from the modelled incoming-queue supply.
An element `none` is a read that produced no data (empty/timeout); an
exhausted supply also yields `none`. -/
def popMsg : List (Option (List Nat)) → Option (List Nat) × List (Option (List Nat))
  | [] => (none, [])
  | m :: ms => (m, ms)

/-- Python truthiness test `not data` on a read result: true for `None`
and for the empty bytes object. -/
def isFalsy : Option (List Nat) → Bool
  | none => true
  | some l => l.isEmpty

/-- Return value of ComHandler._pair: the error-string slot, the sequence
counter handed back, and the third tuple slot (the literal 'Paired' on
success). -/
structure PairResult where
  error : Option String
  sequence : Nat
  result : Option String
deriving Repr, DecidableEq

/-- The `for` loop of ComHandler._pair over the handshake steps: build and
send a frame for the step, read one reply (unchecked), and after the
`PAIR_2` step perform one additional read whose falsiness alone decides
failure; the per-step increment happens after that check. Returns the
result, the frames sent, and the remaining message supply. -/
def pairLoop (steps : List (List Nat)) (sequence : Nat)
    (incoming : List (Option (List Nat))) (sent : List (List Nat)) :
    PairResult × List (List Nat) × List (Option (List Nat)) :=
  match steps with
  | [] => ({ error := none, sequence := sequence, result := some "Paired" }, sent, incoming)
  | step_cmd :: rest =>
    let frame := build_packet (int_to_bytes sequence) PAIR_COMMAND step_cmd
    let sent := sent ++ [frame]
    let (_data, incoming) := popMsg incoming
    if step_cmd = PAIR_2 then
      let (data2, incoming2) := popMsg incoming
      if isFalsy data2 then
        ({ error := some "No data recieved", sequence := sequence, result := none },
         sent, incoming2)
      else pairLoop rest (sequence + 1) incoming2 sent
    else pairLoop rest (sequence + 1) incoming sent

/-- ComHandler._pair (the spelling "No data recieved" is the source's). -/
def _pair (sequence : Nat) (incoming : List (Option (List Nat))) :
    PairResult × List (List Nat) × List (Option (List Nat)) :=
  pairLoop [PAIR_0, PAIR_1, PAIR_2] sequence incoming []

/-- Outcome of a command helper before parse_command's exception handling:
either `(error-string slot, new sequence, result slot)` or an escaped
Python exception; alongside it, the frames sent and the remaining message
supply (both survive an exception). -/
abbrev CmdRet := Except PyExc (Option String × Nat × Option String) ×
  List (List Nat) × List (Option (List Nat))

/-- ComHandler._toggle_feature: exactly `TOGGLE_ON` for the state string
"ON", `TOGGLE_OFF` for every other state; one frame sent, one reply read
and parsed, the sequence incremented before the reply's error is checked.
Parsing a `None` read result would raise `TypeError` (uncaught here: the
local handler catches only `ConnectionError`). -/
def _toggle_feature (sequence : Nat) (state : String) (cmd_code : List Nat)
    (incoming : List (Option (List Nat))) : CmdRet :=
  let toggle_val := if state = "ON" then TOGGLE_ON else TOGGLE_OFF
  let packet := build_packet (int_to_bytes sequence) cmd_code toggle_val
  let (data, incoming) := popMsg incoming
  match data with
  | none => (.error .typeError, [packet], incoming)
  | some bs =>
    let p := parse_packet bs
    let sequence := sequence + 1
    match p.error with
    | some e => (.ok (some e, sequence, none), [packet], incoming)
    | none => (.ok (none, sequence, none), [packet], incoming)

/-- The `for` loop of ComHandler._bud_function_set: for the i-th action
code, payload is one byte `bud + TAP_AMNT[i]` followed by the 2-byte
action; one frame per action is sent, one reply read and ignored, the
sequence incremented per frame. `TAP_AMNT[i]` would raise `IndexError`
past index 2; the action lists all have exactly 3 entries. -/
def budLoop (commands : List (List Nat)) (i : Nat) (bud : Nat) (sequence : Nat)
    (incoming : List (Option (List Nat))) (sent : List (List Nat)) : CmdRet :=
  match commands with
  | [] => (.ok (none, sequence, none), sent, incoming)
  | command :: rest =>
    match TAP_AMNT[i]? with
    | none => (.error .indexError, sent, incoming)
    | some t =>
      let param := bud + t
      let packet := build_packet (int_to_bytes sequence)
        EARBUD_FUNCTIONALITY_COMMAND ([param] ++ command)
      let (_data, incoming) := popMsg incoming
      budLoop rest (i + 1) bud (sequence + 1) incoming (sent ++ [packet])

/-- ComHandler._bud_function_set. The Python guard `if (commands and bud)`
tests truthiness: every preset's action list is non-empty and both bud
codes are non-zero, so truthiness coincides with the lookups succeeding. -/
def _bud_function_set (sequence : Nat) (budstr preset : String)
    (incoming : List (Option (List Nat))) : CmdRet :=
  let presets : List (String × List (List Nat)) :=
    [("control1", [NONE, PLAY_PAUSE, LAST_TRACK]),
     ("control2", [NONE, PLAY_PAUSE, NEXT_TRACK]),
     ("volume", [VOL_DOWN, VOL_UP, NONE]),
     ("none", [NONE, NONE, NONE])]
  let BUD : List (String × Nat) := [("left", LEFT_BUD), ("right", RIGHT_BUD)]
  let preset := if preset = "control" then
    preset ++ (if budstr = "left" then "1" else "2") else preset
  let bud := List.lookup budstr BUD
  let commands := List.lookup preset presets
  match commands, bud with
  | some cs, some b => budLoop cs 0 b sequence incoming []
  | _, _ => (.ok (some "Unknown preset/earbud", sequence, none), [], incoming)

/-- ComHandler._set_preset. The dictionary maps the five preset names to
1..5 (all truthy, so `if choice:` coincides with lookup success) and the
hit indexes `PRESETS[choice]` over the 0-based 5-entry list: index 5 (for
"vocal") raises `IndexError`, uncaught in this function. -/
def _set_preset (sequence : Nat) (preset : String)
    (incoming : List (Option (List Nat))) : CmdRet :=
  let preset_dict : List (String × Nat) :=
    [("standard", 1), ("heavybass", 2), ("rock", 3), ("jazz", 4), ("vocal", 5)]
  match List.lookup preset preset_dict with
  | some choice =>
    match PRESETS[choice]? with
    | some choice_payload =>
      let packet := build_packet (int_to_bytes sequence)
        SOUND_PROFILE_COMMAND choice_payload
      let (_data, incoming) := popMsg incoming
      (.ok (none, sequence + 1, none), [packet], incoming)
    | none => (.error .indexError, [], incoming)
  | none => (.ok (some "Selected preset does not exist.", sequence, none), [], incoming)

/-- What ComHandler.parse_command hands back to the main loop, extended
with the session state, the frames sent, and the remaining supply so the
model threads all observable effects. -/
structure CmdOut where
  error : Option String
  sequence : Nat
  result : Option String
  session : Session
  sent : List (List Nat)
  incoming : List (Option (List Nat))
deriving Repr, DecidableEq

/-- parse_command's exception handlers around a helper call: `IndexError`
becomes "Missing arguments", `TypeError` becomes the "Invalid arguments"
message (Python appends the exception text, elided here), and any other
exception is reported by its text (elided as a class-name placeholder);
in each handler the original sequence value is returned. -/
def runFunc (out : CmdRet) (sequence : Nat) (s : Session) : CmdOut :=
  match out with
  | (.ok (e, seq2, res), sent, inc) =>
    { error := e, sequence := seq2, result := res, session := s,
      sent := sent, incoming := inc }
  | (.error .indexError, sent, inc) =>
    { error := some "Missing arguments", sequence := sequence, result := none,
      session := s, sent := sent, incoming := inc }
  | (.error .typeError, sent, inc) =>
    { error := some "Invalid arguments", sequence := sequence, result := none,
      session := s, sent := sent, incoming := inc }
  | (.error .attributeError, sent, inc) =>
    { error := some "AttributeError", sequence := sequence, result := none,
      session := s, sent := sent, incoming := inc }

/-- ComHandler.parse_command. The not-paired guard runs before dispatch
for every command except "pair". Arity mismatches of the dispatched call
raise `TypeError`, reported as the "Invalid arguments" message. The
"exit" entry's lambda body evaluates the undefined global name `_exit`,
raising `NameError`, reported by the generic handler as its text (elided
as a placeholder string). The session is never modified here. -/
def parse_command (command : String) (args : List String) (sequence : Nat)
    (s : Session) (incoming : List (Option (List Nat))) : CmdOut :=
  if command ≠ "pair" ∧ s.paired = false then
    { error := some "You must pair with the device before doing that.",
      sequence := sequence, result := none, session := s, sent := [],
      incoming := incoming }
  else if command = "pair" then
    let (res, sent, inc) := _pair sequence incoming
    { error := res.error, sequence := res.sequence, result := res.result,
      session := s, sent := sent, incoming := inc }
  else if command = "GM" then
    match args with
    | [state] => runFunc (_toggle_feature sequence state GAME_MODE_COMMAND incoming) sequence s
    | _ => runFunc ((.error .typeError, [], incoming)) sequence s
  else if command = "Spatial" then
    match args with
    | [state] => runFunc (_toggle_feature sequence state SPATIAL_AUDIO_COMMAND incoming) sequence s
    | _ => runFunc ((.error .typeError, [], incoming)) sequence s
  else if command = "FN" then
    match args with
    | [budstr, preset] => runFunc (_bud_function_set sequence budstr preset incoming) sequence s
    | _ => runFunc ((.error .typeError, [], incoming)) sequence s
  else if command = "SP" then
    match args with
    | [preset] => runFunc (_set_preset sequence preset incoming) sequence s
    | _ => runFunc ((.error .typeError, [], incoming)) sequence s
  else if command = "exit" then
    { error := some "name _exit is not defined", sequence := sequence,
      result := none, session := s, sent := [], incoming := incoming }
  else
    { error := some "Unkown command", sequence := sequence, result := none,
      session := s, sent := [], incoming := incoming }

/-- Accumulated observable outcome of the interactive main loop. -/
structure MainOut where
  sequence : Nat
  session : Session
  incoming : List (Option (List Nat))
  sent : List (List Nat)
deriving Repr, DecidableEq

/-- The main() read-eval loop of main.py, restricted to a finite list of
entered command lines: before dispatching each command the counter is
reset to 0 if it equals exactly 16; the printed error string is otherwise
discarded. -/
def main_loop (cmds : List (String × List String)) (sequence : Nat)
    (s : Session) (incoming : List (Option (List Nat)))
    (sent : List (List Nat)) : MainOut :=
  match cmds with
  | [] => { sequence := sequence, session := s, incoming := incoming, sent := sent }
  | (c, args) :: rest =>
    let sequence := if sequence = 16 then 0 else sequence
    let out := parse_command c args sequence s incoming
    main_loop rest out.sequence out.session out.incoming (sent ++ out.sent)

/-- The sequence value a sent frame was issued with: its first byte. -/
def frame_seq (f : List Nat) : Nat := f.headD 0

/-- C1: the EQ preset selection is off by one against the 0-based preset
table. "SP vocal" looks up 5 and indexes `PRESETS[5]` over the 5-entry
list, raising `IndexError` before any frame is sent, which parse_command
reports as "Missing arguments" with the sequence unchanged; "SP standard"
looks up 1 and sends the table's second entry (the heavybass template
starting 0x02) instead of the first. -/
theorem set_preset_off_by_one :
    (parse_command "SP" ["vocal"] 7 { paired := true, c_case := none, device_name := none }
        [some [0, 0, 1, 0, 0]]).error = some "Missing arguments" ∧
    (parse_command "SP" ["vocal"] 7 { paired := true, c_case := none, device_name := none }
        [some [0, 0, 1, 0, 0]]).sent = [] ∧
    (parse_command "SP" ["vocal"] 7 { paired := true, c_case := none, device_name := none }
        [some [0, 0, 1, 0, 0]]).sequence = 7 ∧
    (parse_command "SP" ["standard"] 0 { paired := true, c_case := none, device_name := none }
        [some [0, 0, 1, 0, 0]]).sent =
      [[0x00, 0x20, 0x01, 0x00, 11,
        0x02, 0x0a, 0x06, 0x04, 0xff, 0xfe, 0xfd, 0x01, 0x00, 0x00, 0x00]] := by
  refine ⟨rfl, rfl, rfl, rfl⟩

/-- C5 counterexample: a handshake run whose first per-step await returns
empty still succeeds (error none, result 'Paired', sequence advanced by
3), because the three per-step reads are never checked; only the
additional read after the third step is. -/
theorem pair_ignores_empty_step_reply_cex :
    (_pair 0 [none, some [1], some [1], some [1]]).1 =
      { error := none, sequence := 3, result := some "Paired" } := by
  rfl

/-- C5 amended: the handshake sends exactly the three frames PAIR_0,
PAIR_1, PAIR_2 with opcode 0x27 and consecutive sequence bytes, performs
exactly four reads (one unchecked read per step plus one additional read
after the third step), and fails with the "No data recieved" error exactly
when that additional read is falsy — the three per-step replies are never
checked — returning the counter after only two increments on failure and
after three on success. -/
theorem pair_behavior (seq : Nat) (r0 r1 r2 r3 : Option (List Nat))
    (rest : List (Option (List Nat))) (h : seq < 16) :
    (_pair seq (r0 :: r1 :: r2 :: r3 :: rest)).2.1 =
      [build_packet (int_to_bytes seq) PAIR_COMMAND PAIR_0,
       build_packet (int_to_bytes (seq + 1)) PAIR_COMMAND PAIR_1,
       build_packet (int_to_bytes (seq + 2)) PAIR_COMMAND PAIR_2] ∧
    (_pair seq (r0 :: r1 :: r2 :: r3 :: rest)).2.2 = rest ∧
    (isFalsy r3 = true →
      (_pair seq (r0 :: r1 :: r2 :: r3 :: rest)).1 =
        { error := some "No data recieved", sequence := seq + 2, result := none }) ∧
    (isFalsy r3 = false →
      (_pair seq (r0 :: r1 :: r2 :: r3 :: rest)).1 =
        { error := none, sequence := seq + 3, result := some "Paired" }) := by
  cases h3 : isFalsy r3 <;>
    simp [_pair, pairLoop, popMsg, h3, PAIR_0, PAIR_1, PAIR_2]

/-- Witness for C5's amended theorem at a concrete handshake run. -/
theorem pair_behavior_witness :
    (0 : Nat) < 16 ∧
    isFalsy (some [1]) = false ∧
    (_pair 0 [some [1], some [2], some [3], some [1]]).1 =
      { error := none, sequence := 3, result := some "Paired" } :=
  ⟨by decide, by decide,
    (pair_behavior 0 (some [1]) (some [2]) (some [3]) (some [1]) []
      (by decide)).2.2.2 (by decide)⟩

/-- C8: every command other than "pair" issued while the session is not
paired is rejected with the not-paired message; no frame is sent, the
sequence counter and the session are unchanged, and no message is read. -/
theorem not_paired_rejects_commands (command : String) (args : List String)
    (sequence : Nat) (s : Session) (incoming : List (Option (List Nat)))
    (h1 : command ≠ "pair") (h2 : s.paired = false) :
    parse_command command args sequence s incoming =
      { error := some "You must pair with the device before doing that.",
        sequence := sequence, result := none, session := s, sent := [],
        incoming := incoming } := by
  simp [parse_command, h1, h2]

/-- Witness for C8 at a concrete not-paired command. -/
theorem not_paired_rejects_commands_witness :
    ("GM" : String) ≠ "pair" ∧
    (Session.mk false none none).paired = false ∧
    parse_command "GM" ["ON"] 5 (Session.mk false none none) [] =
      { error := some "You must pair with the device before doing that.",
        sequence := 5, result := none, session := Session.mk false none none,
        sent := [], incoming := [] } :=
  ⟨by decide, rfl,
    not_paired_rejects_commands "GM" ["ON"] 5 (Session.mk false none none) []
      (by decide) rfl⟩

/-- C10: for the feature-toggle commands GM and Spatial, any state string
other than exactly "ON" selects the TOGGLE_OFF payload 0x00: one frame is
sent, the counter advances by one, and the returned error slot is just the
reply frame's parse error (never an invalid-argument rejection). -/
theorem toggle_unrecognized_state_off (seq : Nat) (s : Session) (state : String)
    (r : List Nat) (rest : List (Option (List Nat)))
    (hp : s.paired = true) (hs : state ≠ "ON") :
    parse_command "GM" [state] seq s (some r :: rest) =
      { error := (parse_packet r).error, sequence := seq + 1, result := none,
        session := s,
        sent := [build_packet (int_to_bytes seq) GAME_MODE_COMMAND TOGGLE_OFF],
        incoming := rest } ∧
    parse_command "Spatial" [state] seq s (some r :: rest) =
      { error := (parse_packet r).error, sequence := seq + 1, result := none,
        session := s,
        sent := [build_packet (int_to_bytes seq) SPATIAL_AUDIO_COMMAND TOGGLE_OFF],
        incoming := rest } := by
  cases hE : (parse_packet r).error <;>
    simp [parse_command, hp, hs, _toggle_feature, popMsg, hE, runFunc]

/-- Witness for C10 at a concrete unrecognized state string. -/
theorem toggle_unrecognized_state_off_witness :
    (Session.mk true none none).paired = true ∧
    ("BANANA" : String) ≠ "ON" ∧
    parse_command "GM" ["BANANA"] 3 (Session.mk true none none)
        [some [0, 0, 1, 0, 0]] =
      { error := none, sequence := 4, result := none,
        session := Session.mk true none none,
        sent := [build_packet (int_to_bytes 3) GAME_MODE_COMMAND TOGGLE_OFF],
        incoming := [] } :=
  ⟨rfl, by decide,
    (toggle_unrecognized_state_off 3 (Session.mk true none none) "BANANA"
      [0, 0, 1, 0, 0] [] rfl (by decide)).1⟩

/-- The session state is returned untouched by every arm of
parse_command's exception handling. -/
theorem runFunc_session (out : CmdRet) (sequence : Nat) (s : Session) :
    (runFunc out sequence s).session = s := by
  obtain ⟨e, sent, inc⟩ := out
  cases e with
  | ok v => obtain ⟨a, b, c⟩ := v; rfl
  | error pe => cases pe <;> rfl

/-- Unfolding lemma for the session carried by a normal iteration. -/
@[simp] theorem sessionOf_ok (s : Session) : sessionOf (.ok s) = s := rfl

/-- Unfolding lemma for the session carried out of a crashed iteration. -/
@[simp] theorem sessionOf_error (e : PyExc) (s : Session) :
    sessionOf (.error (e, s)) = s := rfl

/-- C6 counterexample: from an unpaired session, a full handshake run that
completes successfully (result 'Paired', no error) leaves the session's
paired flag false — the handshake itself never sets it; only the
status-updater thread does, upon separately receiving a pairing-response
frame. -/
theorem pair_success_leaves_paired_false_cex :
    (parse_command "pair" [] 0 { paired := false, c_case := none, device_name := none }
        [some [1], some [1], some [1], some [1]]).result = some "Paired" ∧
    (parse_command "pair" [] 0 { paired := false, c_case := none, device_name := none }
        [some [1], some [1], some [1], some [1]]).error = none ∧
    (parse_command "pair" [] 0 { paired := false, c_case := none, device_name := none }
        [some [1], some [1], some [1], some [1]]).session.paired = false := by
  exact ⟨rfl, rfl, rfl⟩

/-- Case analysis of a status-updater iteration: either the session comes
out exactly as it went in, or the consumed frame carried the pair opcode,
its pairing-response parse returned normally with an error slot other
than "wrong packet", and the resulting session has paired set. -/
theorem status_step_main_cases (s : Session) (data : List Nat) :
    sessionOf (_status_updater_step s data) = s ∨
    ((parse_packet data).command = some PAIR_COMMAND ∧
      (∃ pr, parse_pairing_response (parse_packet data) = .ok pr ∧
        pr.error ≠ some "wrong packet") ∧
      (sessionOf (_status_updater_step s data)).paired = true) := by
  unfold _status_updater_step
  by_cases h1 : (parse_packet data).command = some HEARTBEAT
  · left
    rw [if_pos h1]
    repeat' split
    all_goals rfl
  · rw [if_neg h1]
    by_cases h2 : (parse_packet data).command = some PAIR_COMMAND
    · rw [if_pos h2]
      cases hpr : parse_pairing_response (parse_packet data) with
      | error e => left; simp only []; rfl
      | ok pr =>
        simp only []
        by_cases hw : pr.error = some "wrong packet"
        · left; rw [if_pos hw]; rfl
        · right
          rw [if_neg hw]
          refine ⟨h2, ⟨pr, rfl, hw⟩, ?_⟩
          cases hg : get_status pr with
          | error e => rfl
          | ok v => obtain ⟨a, b, c⟩ := v; rfl
    · rw [if_neg h2]; left; rfl

/-- C6 amended: no command dispatched through parse_command (the handshake
included) modifies the session; the paired flag never transitions from
true back to false across status-updater iterations; and a false-to-true
transition happens only when the status updater consumes a frame whose
command byte is the pair opcode and whose pairing-response parse returns
normally with an error slot other than "wrong packet". -/
theorem paired_flag_transitions :
    (∀ (command : String) (args : List String) (sequence : Nat) (s : Session)
        (incoming : List (Option (List Nat))),
      (parse_command command args sequence s incoming).session = s) ∧
    (∀ (s : Session) (data : List Nat), s.paired = true →
      (sessionOf (_status_updater_step s data)).paired = true) ∧
    (∀ (s : Session) (data : List Nat),
      (sessionOf (_status_updater_step s data)).paired = true →
      s.paired = true ∨
        ((parse_packet data).command = some PAIR_COMMAND ∧
          ∃ pr, parse_pairing_response (parse_packet data) = .ok pr ∧
            pr.error ≠ some "wrong packet")) := by
  refine ⟨?_, ?_, ?_⟩
  · intro c a seq s inc
    unfold parse_command
    repeat' split
    all_goals first | rfl | exact runFunc_session ..
  · intro s data h
    rcases status_step_main_cases s data with hcase | ⟨_, _, hpt⟩
    · rw [hcase]; exact h
    · exact hpt
  · intro s data h
    rcases status_step_main_cases s data with hcase | ⟨hc, hex, _⟩
    · left; rw [hcase] at h; exact h
    · exact Or.inr ⟨hc, hex⟩

/-- Witness for C6's amended theorem at concrete inputs. -/
theorem paired_flag_transitions_witness :
    (parse_command "GM" ["ON"] 2 (Session.mk true (some 4) (some [66]))
        [some [0, 0, 1, 0, 0]]).session = Session.mk true (some 4) (some [66]) ∧
    (Session.mk true (some 4) (some [66])).paired = true ∧
    (sessionOf (_status_updater_step (Session.mk true (some 4) (some [66]))
        [0, 0, 1, 0, 0])).paired = true :=
  ⟨paired_flag_transitions.1 "GM" ["ON"] 2 (Session.mk true (some 4) (some [66]))
      [some [0, 0, 1, 0, 0]],
    rfl,
    paired_flag_transitions.2.1 (Session.mk true (some 4) (some [66]))
      [0, 0, 1, 0, 0] rfl⟩

/-- An unknown earbud name makes the BUD dictionary lookup falsy, so
_bud_function_set rejects before sending anything. -/
theorem bud_unknown (seq : Nat) (budstr preset : String)
    (inc : List (Option (List Nat)))
    (hb1 : budstr ≠ "left") (hb2 : budstr ≠ "right") :
    _bud_function_set seq budstr preset inc =
      (.ok (some "Unknown preset/earbud", seq, none), [], inc) := by
  have e1 : (budstr == "left") = false := beq_eq_false_iff_ne.mpr hb1
  have e2 : (budstr == "right") = false := beq_eq_false_iff_ne.mpr hb2
  have hbud : List.lookup budstr [("left", LEFT_BUD), ("right", RIGHT_BUD)] = none := by
    simp [List.lookup, e1, e2]
  unfold _bud_function_set
  simp only []
  split
  · rename_i cs b hcs hb
    rw [hbud] at hb
    exact Option.noConfusion hb
  · rfl

/-- An unknown tap-preset name makes the preset dictionary lookup falsy,
so _bud_function_set rejects before sending anything. -/
theorem preset_unknown (seq : Nat) (budstr preset : String)
    (inc : List (Option (List Nat)))
    (hp1 : preset ≠ "control") (hp2 : preset ≠ "control1")
    (hp3 : preset ≠ "control2") (hp4 : preset ≠ "volume")
    (hp5 : preset ≠ "none") :
    _bud_function_set seq budstr preset inc =
      (.ok (some "Unknown preset/earbud", seq, none), [], inc) := by
  have hcs : List.lookup preset
      [("control1", [NONE, PLAY_PAUSE, LAST_TRACK]),
       ("control2", [NONE, PLAY_PAUSE, NEXT_TRACK]),
       ("volume", [VOL_DOWN, VOL_UP, NONE]),
       ("none", [NONE, NONE, NONE])] = none := by
    have e2 : (preset == "control1") = false := beq_eq_false_iff_ne.mpr hp2
    have e3 : (preset == "control2") = false := beq_eq_false_iff_ne.mpr hp3
    have e4 : (preset == "volume") = false := beq_eq_false_iff_ne.mpr hp4
    have e5 : (preset == "none") = false := beq_eq_false_iff_ne.mpr hp5
    simp [List.lookup, e2, e3, e4, e5]
  unfold _bud_function_set
  simp only [if_neg hp1]
  split
  · rename_i cs b hc hb
    rw [hcs] at hc
    exact Option.noConfusion hc
  · rfl

/-- C9: on a paired session, "FN left control" resolves to the control1
triple and sends exactly three frames with opcode 0x22, payload first
bytes 1, 3, 5 (the left-bud code 1 plus the tap offsets 0, 2, 4) followed
by the action codes NONE, PLAY_PAUSE, LAST_TRACK in order, advancing the
counter by three; an unknown bud name, or an unknown preset name, is
rejected with the unknown-preset/earbud error before any frame is sent,
with the counter unchanged. -/
theorem fn_left_control_frames :
    (∀ (seq : Nat) (s : Session) (r0 r1 r2 : Option (List Nat))
        (rest : List (Option (List Nat))), s.paired = true →
      parse_command "FN" ["left", "control"] seq s (r0 :: r1 :: r2 :: rest) =
        { error := none, sequence := seq + 3, result := none, session := s,
          sent := [build_packet (int_to_bytes seq)
                     EARBUD_FUNCTIONALITY_COMMAND ([1] ++ NONE),
                   build_packet (int_to_bytes (seq + 1))
                     EARBUD_FUNCTIONALITY_COMMAND ([3] ++ PLAY_PAUSE),
                   build_packet (int_to_bytes (seq + 2))
                     EARBUD_FUNCTIONALITY_COMMAND ([5] ++ LAST_TRACK)],
          incoming := rest }) ∧
    (∀ (seq : Nat) (s : Session) (inc : List (Option (List Nat)))
        (budstr preset : String), s.paired = true →
      budstr ≠ "left" → budstr ≠ "right" →
      parse_command "FN" [budstr, preset] seq s inc =
        { error := some "Unknown preset/earbud", sequence := seq, result := none,
          session := s, sent := [], incoming := inc }) ∧
    (∀ (seq : Nat) (s : Session) (inc : List (Option (List Nat)))
        (budstr preset : String), s.paired = true →
      preset ≠ "control" → preset ≠ "control1" → preset ≠ "control2" →
      preset ≠ "volume" → preset ≠ "none" →
      parse_command "FN" [budstr, preset] seq s inc =
        { error := some "Unknown preset/earbud", sequence := seq, result := none,
          session := s, sent := [], incoming := inc }) := by
  have t0 : TAP_AMNT[0]? = some 0 := rfl
  have t1 : TAP_AMNT[1]? = some 2 := rfl
  have t2 : TAP_AMNT[2]? = some 4 := rfl
  refine ⟨?_, ?_, ?_⟩
  · intro seq s r0 r1 r2 rest hp
    simp [parse_command, hp, _bud_function_set, budLoop, popMsg,
      t0, t1, t2, runFunc, LEFT_BUD, List.lookup]
  · intro seq s inc budstr preset hp hb1 hb2
    simp [parse_command, hp, bud_unknown seq budstr preset inc hb1 hb2, runFunc]
  · intro seq s inc budstr preset hp hp1 hp2 hp3 hp4 hp5
    simp [parse_command, hp,
      preset_unknown seq budstr preset inc hp1 hp2 hp3 hp4 hp5, runFunc]

/-- Witness for C9 at concrete inputs: the paired left-control command and
an unknown earbud name. -/
theorem fn_left_control_frames_witness :
    (Session.mk true none none).paired = true ∧
    ("up" : String) ≠ "left" ∧ ("up" : String) ≠ "right" ∧
    parse_command "FN" ["left", "control"] 0 (Session.mk true none none)
        [some [1], some [1], some [1]] =
      { error := none, sequence := 3, result := none,
        session := Session.mk true none none,
        sent := [build_packet (int_to_bytes 0)
                   EARBUD_FUNCTIONALITY_COMMAND ([1] ++ NONE),
                 build_packet (int_to_bytes 1)
                   EARBUD_FUNCTIONALITY_COMMAND ([3] ++ PLAY_PAUSE),
                 build_packet (int_to_bytes 2)
                   EARBUD_FUNCTIONALITY_COMMAND ([5] ++ LAST_TRACK)],
        incoming := [] } ∧
    parse_command "FN" ["up", "volume"] 9 (Session.mk true none none) [] =
      { error := some "Unknown preset/earbud", sequence := 9, result := none,
        session := Session.mk true none none, sent := [], incoming := [] } :=
  ⟨rfl, by decide, by decide,
    fn_left_control_frames.1 0 (Session.mk true none none)
      (some [1]) (some [1]) (some [1]) [] rfl,
    fn_left_control_frames.2.1 9 (Session.mk true none none) [] "up" "volume"
      rfl (by decide) (by decide)⟩

/-- C7 counterexample: six consecutive "FN left control" commands from a
fresh counter issue eighteen sequence values; the values actually placed
in the sent frames are 0..17, so the 17th issued value is 16 (not 0) and
values outside [0,16) are issued: the reset in the main loop fires only
between commands and only on exactly 16, which a three-frame command
jumps over, after which the counter never wraps. -/
theorem sequence_past_sixteen_cex :
    (main_loop (List.replicate 6 ("FN", ["left", "control"])) 0
        { paired := true, c_case := none, device_name := none }
        (List.replicate 18 (some [0, 0, 1, 0, 0])) []).sent.map frame_seq =
      [0, 1, 2, 3, 4, 5, 6, 7, 8, 9, 10, 11, 12, 13, 14, 15, 16, 17] := by
  rfl

/-- C7 amended: the counter reset applies only between commands and only
when the counter is then exactly 16: across seventeen single-frame
commands starting from 0 the issued values are 0..15 and then 0 again (the
17th issued value is 0), while a multi-frame command that crosses 16
issues values 16 and beyond and skips the reset forever. -/
theorem sequence_wraps_at_command_boundary :
    (main_loop (List.replicate 17 ("GM", ["ON"])) 0
        { paired := true, c_case := none, device_name := none }
        (List.replicate 17 (some [0, 0, 1, 0, 0])) []).sent.map frame_seq =
      [0, 1, 2, 3, 4, 5, 6, 7, 8, 9, 10, 11, 12, 13, 14, 15, 0] := by
  rfl
